import Mathlib

/-!
Shallow embedding of `src/internal/buffer.rs` (the `Buffer` buffered-read
cursor of the querust crate) and proofs about the spec's claims on it.

Modelling conventions:
* the backing storage `buf : Box<[MaybeUninit<u8>]>` is a fixed-length
  `List Nat` (allocated with an arbitrary fill value; bytes at or beyond
  `initialized` carry no meaning for the program);
* `usize` arithmetic is exact `Nat` arithmetic guarded by explicit
  overflow/underflow checks where the source performs unchecked `+`/`-`:
  an operation returns `none` where the Rust code would panic in a debug
  build (arithmetic overflow, out-of-bounds slicing);
* a byte source implementing `std::io::Read` is a deterministic list of
  responses, each either a chunk of bytes (truncated to the requested
  length, as `read` may write at most `buf.len()` bytes) or an I/O error;
  an exhausted list keeps answering with zero bytes, the end-of-source
  signal of the `Read` contract.
-/

namespace Querust

/-- Write the byte list `ws` into `data` starting at `offset`, leaving the
rest of `data` unchanged.  Models a reader writing `ws.length` bytes into the
sub-slice of the backing storage that starts at `offset`. -/
def writeAt (data : List Nat) (offset : Nat) (ws : List Nat) : List Nat :=
  data.take offset ++ ws ++ data.drop (offset + ws.length)

/-- One response of a byte source to a single `read` call: either a list of
bytes written (possibly truncated to the requested length), or an I/O
error. -/
inductive ReadStep where
  | bytes : List Nat → ReadStep
  | ioError : ReadStep
deriving DecidableEq

/-- A deterministic byte source: the responses it gives to successive `read`
calls, in order.  Once the list is exhausted the source keeps answering with
zero bytes. -/
structure Reader where
  steps : List ReadStep
deriving DecidableEq

/-- The `Read::read` contract of the source: asked to fill a destination of
`len` bytes, it either writes at most `len` bytes and reports how many
(`0` being the end-of-source signal), or fails with an I/O error. -/
def Reader.read (r : Reader) (len : Nat) : Except Unit (List Nat) × Reader :=
  match r.steps with
  | [] => (Except.ok [], ⟨[]⟩)
  | ReadStep.bytes ws :: rest => (Except.ok (ws.take len), ⟨rest⟩)
  | ReadStep.ioError :: rest => (Except.error (), ⟨rest⟩)

/-- The `Buffer` struct of `src/internal/buffer.rs`: the backing storage and
the three cursor fields `pos`, `end` (written `end_`, a Lean keyword) and
`initialized`. -/
structure Buffer where
  buf : List Nat
  pos : Nat
  end_ : Nat
  initialized : Nat
deriving DecidableEq

/-- `Buffer::new(capacity)`: allocates `capacity` bytes of storage whose
contents are irrelevant (modelled as zeros), with all three cursors at
`0`. -/
def Buffer.new (capacity : Nat) : Buffer :=
  ⟨List.replicate capacity 0, 0, 0, 0⟩

/-- `Buffer::buffer()`: the read-only view `&self.buf[self.pos..self.end]` of
unread data.  Meaningful (and panic-free in Rust) only when
`pos ≤ end_ ≤ buf.length`; the operations calling it guard those bounds. -/
def Buffer.buffer (b : Buffer) : List Nat :=
  (b.buf.take b.end_).drop b.pos

/-- `Buffer::len()`: the capacity of the backing storage, initialized and
uninitialized bytes alike. -/
def Buffer.len (b : Buffer) : Nat := b.buf.length

/-- `Buffer::discard_buffer()`: sets the cursor position and the number of
filled bytes back to `0`; does not touch `initialized` or the storage. -/
def Buffer.discard_buffer (b : Buffer) : Buffer :=
  { b with pos := 0, end_ := 0 }

/-- The number of values of `usize` on the 64-bit targets the crate builds
for. -/
def USIZE : Nat := 2 ^ 64

/-- `Buffer::reposition(amount)`: `self.pos = min(self.pos + amount,
self.end)`.  The sum `self.pos + amount` is computed before the clamp;
`none` models the debug-build panic when that sum overflows `usize`. -/
def Buffer.reposition (b : Buffer) (amount : Nat) : Option Buffer :=
  if b.pos + amount < USIZE then
    some { b with pos := min (b.pos + amount) b.end_ }
  else none

/-- `Buffer::try_reposition(amount)`: the source matches on
`self.pos + amount > self.end`; in the `true` branch it sets
`self.pos = self.pos + amount` and returns `Some(())`, in the `false` branch
it returns `None` with the cursor unchanged.  The outer `none` models the
debug-build panic when `self.pos + amount` overflows `usize`. -/
def Buffer.try_reposition (b : Buffer) (amount : Nat) :
    Option (Option Unit × Buffer) :=
  if b.pos + amount < USIZE then
    if b.pos + amount > b.end_ then
      some (some (), { b with pos := b.pos + amount })
    else
      some (none, b)
  else none

/-- `Buffer::unposition(amount)`: `self.pos.saturating_sub(amount)`, which is
exactly truncated subtraction on `Nat`. -/
def Buffer.unposition (b : Buffer) (amount : Nat) : Buffer :=
  { b with pos := b.pos - amount }

/-- `Buffer::try_unposition(amount)`: the source matches on
`self.pos - amount > 0` with an unchecked `usize` subtraction.  When
`amount > pos` that subtraction underflows — a panic in debug builds,
modelled by the outer `none`.  Otherwise the `true` branch sets
`self.pos = self.pos - amount` and returns `Some(())`, and the `false`
branch (hit exactly when `amount = pos`) returns `None` with the cursor
unchanged. -/
def Buffer.try_unposition (b : Buffer) (amount : Nat) :
    Option (Option Unit × Buffer) :=
  if amount ≤ b.pos then
    if b.pos - amount > 0 then
      some (some (), { b with pos := b.pos - amount })
    else
      some (none, b)
  else none

/-- `Buffer::consume(amount, f)`: when `self.buffer().get(..amount)` is
`Some`, calls `f` once on those bytes and advances `pos` by `amount`,
returning `Some(())`; otherwise returns `None` without mutation.  The
visitor `f` is modelled by returning the list of argument slices it was
invoked with (`[]` meaning it was not invoked).  The outer `none` models the
panic of the slicing `&self.buf[self.pos..self.end]` inside `buffer()` on an
out-of-bounds state. -/
def Buffer.consume (b : Buffer) (amount : Nat) :
    Option (Option Unit × Buffer × List (List Nat)) :=
  if b.pos ≤ b.end_ ∧ b.end_ ≤ b.buf.length then
    if amount ≤ b.buffer.length then
      some (some (), { b with pos := b.pos + amount }, [b.buffer.take amount])
    else
      some (none, b, [])
  else none

/-- `Buffer::read_some(reader)`: slices `&mut self.buf[self.pos..]` (the
outer `none` models the slicing panic when `pos > buf.len()`), lets the
reader write into that slice, propagates an I/O error without touching the
cursors, returns `Ok(0)` without mutation on a zero-byte read, and otherwise
performs `self.end += bytes` and
`self.initialized = max(self.pos + bytes, self.initialized)`.  Note the
reader writes at offset `pos`, while `end` grows by the byte count. -/
def Buffer.read_some (b : Buffer) (r : Reader) :
    Option (Except Unit Nat × Buffer × Reader) :=
  if b.pos ≤ b.buf.length then
    match r.read (b.buf.length - b.pos) with
    | (Except.error e, r') => some (Except.error e, b, r')
    | (Except.ok ws, r') =>
      if ws.length = 0 then some (Except.ok 0, b, r')
      else
        some (Except.ok ws.length,
          { b with
              buf := writeAt b.buf b.pos ws,
              end_ := b.end_ + ws.length,
              initialized := max (b.pos + ws.length) b.initialized },
          r')
  else none

/-- `Buffer::fill_buf(reader)`: sets `self.pos = 0` first, then lets the
reader write into the whole backing buffer; propagates an I/O error (with
`pos` already reset), returns `Ok(0)` on a zero-byte read, and otherwise
sets `self.end = bytes` and
`self.initialized = max(self.pos + bytes, self.initialized)` with `pos`
equal to `0`. -/
def Buffer.fill_buf (b : Buffer) (r : Reader) :
    Except Unit Nat × Buffer × Reader :=
  let b0 : Buffer := { b with pos := 0 }
  match r.read b0.buf.length with
  | (Except.error e, r') => (Except.error e, b0, r')
  | (Except.ok ws, r') =>
    if ws.length = 0 then (Except.ok 0, b0, r')
    else
      (Except.ok ws.length,
        { b0 with
            buf := writeAt b0.buf 0 ws,
            end_ := ws.length,
            initialized := max (0 + ws.length) b0.initialized },
        r')

/-- The documented invariant of the buffer:
`0 ≤ pos ≤ end ≤ initialized ≤ capacity` (the `0 ≤` part is implicit in
`Nat`). -/
def Buffer.WF (b : Buffer) : Prop :=
  b.pos ≤ b.end_ ∧ b.end_ ≤ b.initialized ∧ b.initialized ≤ b.buf.length

instance (b : Buffer) : Decidable b.WF :=
  inferInstanceAs
    (Decidable
      (b.pos ≤ b.end_ ∧ b.end_ ≤ b.initialized ∧ b.initialized ≤ b.buf.length))

/-- C1: invariant preservation fails on `read_some`.  The state
`capacity = 8, pos = 2, end = 5, initialized = 5` satisfies the invariant
and a reader returning `3 ≤ capacity - pos` bytes makes `read_some` succeed
with `Ok(3)` — but the resulting state has `end = 8 > initialized = 5`,
violating `filled ≤ initialized`. -/
theorem read_some_breaks_invariant :
    Buffer.WF ⟨[1, 2, 3, 4, 5, 0, 0, 0], 2, 5, 5⟩ ∧
    Buffer.read_some ⟨[1, 2, 3, 4, 5, 0, 0, 0], 2, 5, 5⟩
        ⟨[ReadStep.bytes [9, 9, 9]]⟩ =
      some (Except.ok 3, ⟨[1, 2, 9, 9, 9, 0, 0, 0], 2, 8, 5⟩, ⟨[]⟩) ∧
    ¬ Buffer.WF ⟨[1, 2, 9, 9, 9, 0, 0, 0], 2, 8, 5⟩ :=
  ⟨by decide, rfl, by decide⟩

/-- C2: the checked-advance contract fails on the code.  With
`capacity = 8, pos = 0, end = 4`: `try_reposition 6` (where `0 + 6 > 4`)
returns `Some(())` and sets `pos = 6`, past `end = 4`; `try_reposition 4`
(where `0 + 4 ≤ 4`) returns `None` and leaves `pos = 0`.  This is the exact
opposite of the claim, which requires failure for `6` and success with
`pos = 4` for `4`. -/
theorem try_reposition_inverted :
    Buffer.try_reposition ⟨List.replicate 8 0, 0, 4, 4⟩ 6 =
      some (some (), ⟨List.replicate 8 0, 6, 4, 4⟩) ∧
    Buffer.try_reposition ⟨List.replicate 8 0, 0, 4, 4⟩ 4 =
      some (none, ⟨List.replicate 8 0, 0, 4, 4⟩) :=
  ⟨rfl, rfl⟩

/-- C3: `read_some` does not append after the unread window.  From
`pos = 2, end = 5` with unread window `[3, 4, 5]`, a source producing
`[7, 8, 9]` gives the claimed index update `filled = 8`, but the three new
bytes are written at offset `pos = 2`, so the pre-existing unread bytes at
offsets `[2, 5)` become `[7, 8, 9]` instead of staying `[3, 4, 5]` (and the
bytes at offsets `[5, 8)`, now below `filled`, were never written). -/
theorem read_some_overwrites_window :
    Buffer.buffer ⟨[1, 2, 3, 4, 5, 0, 0, 0], 2, 5, 5⟩ = [3, 4, 5] ∧
    Buffer.read_some ⟨[1, 2, 3, 4, 5, 0, 0, 0], 2, 5, 5⟩
        ⟨[ReadStep.bytes [7, 8, 9]]⟩ =
      some (Except.ok 3, ⟨[1, 2, 7, 8, 9, 0, 0, 0], 2, 8, 5⟩, ⟨[]⟩) ∧
    ((⟨[1, 2, 7, 8, 9, 0, 0, 0], 2, 8, 5⟩ : Buffer).buf.take 5).drop 2 =
      [7, 8, 9] :=
  ⟨rfl, rfl, rfl⟩

/-- C4 counterexample: `fill_buf` from `pos = 2` with an exhausted source
returns `Ok(0)` but has already reset `pos` to `0`, so position is not left
unchanged as the claim states for both loading operations. -/
theorem fill_buf_zero_read_moves_pos :
    Buffer.fill_buf ⟨[1, 2, 3, 4, 5, 0, 0, 0], 2, 5, 5⟩ ⟨[]⟩ =
      (Except.ok 0, ⟨[1, 2, 3, 4, 5, 0, 0, 0], 0, 5, 5⟩, ⟨[]⟩) ∧
    (Buffer.fill_buf ⟨[1, 2, 3, 4, 5, 0, 0, 0], 2, 5, 5⟩ ⟨[]⟩).2.1.pos ≠
      (⟨[1, 2, 3, 4, 5, 0, 0, 0], 2, 5, 5⟩ : Buffer).pos :=
  ⟨rfl, by decide⟩

/-- C4 amended: a source returning zero bytes makes both loading operations
return `Ok(0)` and leave `end` and `initialized` unchanged; `read_some`
additionally leaves `pos` unchanged, while `fill_buf` has already reset
`pos` to `0` before the read, so its position is unchanged only when it was
already `0`. -/
theorem zero_byte_read_behavior (b : Buffer) (r : Reader)
    (hp : b.pos ≤ b.buf.length)
    (h1 : (r.read (b.buf.length - b.pos)).1 = Except.ok [])
    (h2 : (r.read b.buf.length).1 = Except.ok []) :
    Buffer.read_some b r =
      some (Except.ok 0, b, (r.read (b.buf.length - b.pos)).2) ∧
    Buffer.fill_buf b r =
      (Except.ok 0, { b with pos := 0 }, (r.read b.buf.length).2) := by
  constructor
  · rcases hr : r.read (b.buf.length - b.pos) with ⟨res, r'⟩
    rw [hr] at h1
    simp only at h1
    subst h1
    simp [Buffer.read_some, hp, hr]
  · rcases hr : r.read b.buf.length with ⟨res, r'⟩
    rw [hr] at h2
    simp only at h2
    subst h2
    simp [Buffer.fill_buf, hr]

/-- C4 witness: the amended statement instantiated at a concrete buffer with
`pos = 2` and an exhausted source. -/
theorem zero_byte_read_behavior_witness :
    Buffer.read_some ⟨[1, 2, 3, 4, 5, 0, 0, 0], 2, 5, 5⟩ ⟨[]⟩ =
      some (Except.ok 0, ⟨[1, 2, 3, 4, 5, 0, 0, 0], 2, 5, 5⟩, ⟨[]⟩) ∧
    Buffer.fill_buf ⟨[1, 2, 3, 4, 5, 0, 0, 0], 2, 5, 5⟩ ⟨[]⟩ =
      (Except.ok 0, ⟨[1, 2, 3, 4, 5, 0, 0, 0], 0, 5, 5⟩, ⟨[]⟩) :=
  zero_byte_read_behavior ⟨[1, 2, 3, 4, 5, 0, 0, 0], 2, 5, 5⟩ ⟨[]⟩
    (by decide) rfl rfl

/-- C5: the checked-retreat contract fails on the code.  With `pos = 3`,
`try_unposition 3` — the case `n = pos`, where the claim requires success
ending at `pos = 0` — returns `None` and leaves `pos = 3`, because the
source compares `self.pos - amount > 0`; and with `pos = 0`,
`try_unposition 1` underflows that `usize` subtraction before any check (a
panic in debug builds, modelled by `none`) instead of failing cleanly. -/
theorem try_unposition_wrong :
    Buffer.try_unposition ⟨List.replicate 8 0, 3, 4, 4⟩ 3 =
      some (none, ⟨List.replicate 8 0, 3, 4, 4⟩) ∧
    Buffer.try_unposition ⟨List.replicate 8 0, 0, 0, 0⟩ 1 = none :=
  ⟨rfl, rfl⟩

/-- C6: the no-panic claim fails.  Directly on the freshly created buffer
`new 8`, the documented input `try_unposition 1` underflows the `usize`
subtraction `self.pos - 1` (with `pos = 0`) before any bounds check — a
panic in debug builds, modelled by `none`; likewise `reposition` computes
`self.pos + amount` before clamping, which overflows `usize` at
`amount = 2 ^ 64 - 1` once `pos = 1`. -/
theorem buffer_ops_can_panic :
    (Buffer.new 8).try_unposition 1 = none ∧
    Buffer.reposition ⟨List.replicate 8 0, 1, 4, 4⟩ (2 ^ 64 - 1) = none := by
  constructor
  · rfl
  · simp [Buffer.reposition, USIZE]

/-- C7: `consume` is atomic.  In any in-bounds state, when at least `n`
unread bytes are available (`n ≤ end - pos`) it invokes the visitor exactly
once, with exactly the first `n` bytes of the unread window, advances `pos`
by `n` and succeeds; otherwise it invokes the visitor zero times, leaves the
state unchanged and fails. -/
theorem consume_atomic (b : Buffer) (n : Nat)
    (h1 : b.pos ≤ b.end_) (h2 : b.end_ ≤ b.buf.length) :
    (n ≤ b.end_ - b.pos →
      b.consume n =
        some (some (), { b with pos := b.pos + n }, [b.buffer.take n]) ∧
      (b.buffer.take n).length = n) ∧
    (¬ n ≤ b.end_ - b.pos → b.consume n = some (none, b, [])) := by
  have hlen : b.buffer.length = b.end_ - b.pos := by
    simp [Buffer.buffer]
    omega
  constructor
  · intro hn
    refine ⟨by simp [Buffer.consume, h1, h2, hlen, hn], ?_⟩
    simp [hlen]
    omega
  · intro hn
    simp [Buffer.consume, h1, h2, hlen, hn]

/-- C7 witness: with three unread bytes (`pos = 1, end = 4`),
`consume 5` does not invoke the visitor and leaves the state unchanged. -/
theorem consume_atomic_witness :
    Buffer.consume ⟨[1, 2, 3, 4, 5, 6, 7, 8], 1, 4, 4⟩ 5 =
      some (none, ⟨[1, 2, 3, 4, 5, 6, 7, 8], 1, 4, 4⟩, []) :=
  (consume_atomic ⟨[1, 2, 3, 4, 5, 6, 7, 8], 1, 4, 4⟩ 5
    (by decide) (by decide)).2 (by decide)

/-- C8: the round-trip scenario.  From `new 8` and a source yielding
`[1, 2, 3, 4]` then zero bytes forever: `fill_buf` gives
`filled = 4, pos = 0`; `consume 2` passes `[1, 2]` to the visitor and leaves
`pos = 2`; `reposition 10` clamps `pos` to `4`; `discard_buffer` gives
`pos = 0, end = 0` with `initialized` still `4`; and a final `read_some`
from the now-exhausted source returns `Ok(0)` with no state change. -/
theorem round_trip_scenario :
    Buffer.new 8 = ⟨List.replicate 8 0, 0, 0, 0⟩ ∧
    Buffer.fill_buf ⟨List.replicate 8 0, 0, 0, 0⟩
        ⟨[ReadStep.bytes [1, 2, 3, 4]]⟩ =
      (Except.ok 4, ⟨[1, 2, 3, 4, 0, 0, 0, 0], 0, 4, 4⟩, ⟨[]⟩) ∧
    Buffer.consume ⟨[1, 2, 3, 4, 0, 0, 0, 0], 0, 4, 4⟩ 2 =
      some (some (), ⟨[1, 2, 3, 4, 0, 0, 0, 0], 2, 4, 4⟩, [[1, 2]]) ∧
    Buffer.reposition ⟨[1, 2, 3, 4, 0, 0, 0, 0], 2, 4, 4⟩ 10 =
      some ⟨[1, 2, 3, 4, 0, 0, 0, 0], 4, 4, 4⟩ ∧
    Buffer.discard_buffer ⟨[1, 2, 3, 4, 0, 0, 0, 0], 4, 4, 4⟩ =
      ⟨[1, 2, 3, 4, 0, 0, 0, 0], 0, 0, 4⟩ ∧
    Buffer.read_some ⟨[1, 2, 3, 4, 0, 0, 0, 0], 0, 0, 4⟩ ⟨[]⟩ =
      some (Except.ok 0, ⟨[1, 2, 3, 4, 0, 0, 0, 0], 0, 0, 4⟩, ⟨[]⟩) :=
  ⟨rfl, rfl, rfl, rfl, rfl, rfl⟩

/-- C9: `discard_buffer` is idempotent — applying it twice equals applying
it once, both calls end with `pos = end = 0`, and neither `initialized` nor
the capacity changes. -/
theorem discard_buffer_idempotent (b : Buffer) :
    b.discard_buffer.discard_buffer = b.discard_buffer ∧
    b.discard_buffer.pos = 0 ∧
    b.discard_buffer.end_ = 0 ∧
    b.discard_buffer.initialized = b.initialized ∧
    b.discard_buffer.len = b.len :=
  ⟨rfl, rfl, rfl, rfl, rfl⟩

/-- C10: `fill_buf` is not atomic with respect to I/O failure.  When the
source fails, `fill_buf` propagates the error with `pos` already reset to
`0` while `end` and `initialized` keep their pre-call values, whereas
`read_some` propagates the error with all three cursors (and the storage)
unchanged. -/
theorem fill_buf_error_frame (b : Buffer) (r : Reader) (rest : List ReadStep)
    (hp : b.pos ≤ b.buf.length)
    (hs : r.steps = ReadStep.ioError :: rest) :
    Buffer.fill_buf b r = (Except.error (), { b with pos := 0 }, ⟨rest⟩) ∧
    Buffer.read_some b r = some (Except.error (), b, ⟨rest⟩) := by
  rcases r with ⟨steps⟩
  simp only at hs
  subst hs
  exact ⟨rfl, by simp [Buffer.read_some, Reader.read, hp]⟩

/-- C10 witness: the error frame instantiated at a concrete buffer with
`pos = 2, end = 5, initialized = 5` and a failing source. -/
theorem fill_buf_error_frame_witness :
    Buffer.fill_buf ⟨[1, 2, 3, 4, 5, 0, 0, 0], 2, 5, 5⟩
        ⟨[ReadStep.ioError]⟩ =
      (Except.error (), ⟨[1, 2, 3, 4, 5, 0, 0, 0], 0, 5, 5⟩, ⟨[]⟩) ∧
    Buffer.read_some ⟨[1, 2, 3, 4, 5, 0, 0, 0], 2, 5, 5⟩
        ⟨[ReadStep.ioError]⟩ =
      some (Except.error (), ⟨[1, 2, 3, 4, 5, 0, 0, 0], 2, 5, 5⟩, ⟨[]⟩) :=
  fill_buf_error_frame ⟨[1, 2, 3, 4, 5, 0, 0, 0], 2, 5, 5⟩
    ⟨[ReadStep.ioError]⟩ [] (by decide) rfl

end Querust
